import Mathlib

/-!
Verification of the QQBot adapter plugin (kohinata-plugin-adapter-qqbot).

This file contains a shallow embedding of the parts of the source that the
verified claims are about:

* the configuration load/save pipeline (formatConfig, cleanConfigForWrite,
  getDefaultConfig and the appId de-duplication, from src/utils/config.ts);
* the gateway session manager (createWebSocketConnection,
  stopWebSocketConnection, attemptReconnect, handleWebSocketMessage,
  buildIntents, from src/connection/webSocket.ts, including the legacy
  variant of the WebSocket handler that hardcodes its intents bitmask);
* the outbound message composer (sendQQMsg element classification, payload
  assembly and passive-reply sequencing of the normal and the markdown
  adapters, from src/core/adapter/normal.ts and src/core/adapter/markdown.ts).

JavaScript strings are Lean String, JS numbers that the code treats as
non-negative integers are Nat, optional / deletable JSON fields are Option,
and external collaborators (HTTP upload, QR rendering, the injected
markdown post-processing step that lives outside the analysed sources) are
function parameters of the embedding, so every proved statement holds for
every behaviour of those collaborators.
-/

set_option maxHeartbeats 1000000

namespace QQBotAdapter

/-! ## Configuration data model (src/types/config.ts shapes) -/

/-- The markdown sub-record of a bot configuration (mode, template id, kv). -/
structure MarkdownCfg where
  mode : Nat
  id : String
  kv : List String
deriving DecidableEq

/-- The event sub-record of a bot configuration (type, wsUrl, wsToken). -/
structure EventCfg where
  type : Nat
  wsUrl : String
  wsToken : String
deriving DecidableEq

/-- A fully formatted per-identity configuration record (QQBotConfig): the
shape produced by formatConfig, in which every field is present. -/
structure QQBotConfig where
  appId : String
  secret : String
  prodApi : String
  sandboxApi : String
  tokenApi : String
  sandbox : Bool
  qqEnable : Bool
  guildEnable : Bool
  guildMode : Nat
  exclude : List String
  regex : List (String × String)
  markdown : MarkdownCfg
  event : EventCfg
deriving DecidableEq

/-- The markdown sub-record as it may appear in the persisted JSON file,
where any field may be absent. -/
structure UserMarkdownCfg where
  mode : Option Nat
  id : Option String
  kv : Option (List String)
deriving DecidableEq

/-- The event sub-record as it may appear in the persisted JSON file, where
any field may be absent (cleanConfigForWrite deletes default-valued ones). -/
structure UserEventCfg where
  type : Option Nat
  wsUrl : Option String
  wsToken : Option String
deriving DecidableEq

/-- A per-identity configuration record as it may appear in the persisted
JSON file: every field may be absent. -/
structure UserQQBotConfig where
  appId : Option String
  secret : Option String
  prodApi : Option String
  sandboxApi : Option String
  tokenApi : Option String
  sandbox : Option Bool
  qqEnable : Option Bool
  guildEnable : Option Bool
  guildMode : Option Nat
  exclude : Option (List String)
  regex : Option (List (String × String))
  markdown : Option UserMarkdownCfg
  event : Option UserEventCfg
deriving DecidableEq

/-- The single default record of getDefaultConfig (src/utils/config.ts). -/
def defaultCfg : QQBotConfig :=
  { appId := ""
  , secret := ""
  , prodApi := "https://api.sgroup.qq.com"
  , sandboxApi := "https://sandbox.api.sgroup.qq.com"
  , tokenApi := "https://bots.qq.com/app/getAppAccessToken"
  , sandbox := false
  , qqEnable := true
  , guildEnable := true
  , guildMode := 0
  , exclude := []
  , regex := [("^/", "#")]
  , markdown := { mode := 0, id := "", kv := ["text_start", "img_dec", "img_url", "text_end"] }
  , event := { type := 0, wsUrl := "wss://sandbox.api.sgroup.qq.com/websocket/", wsToken := "" } }

/-- getDefaultConfig returns a one-element list holding the default record. -/
def getDefaultConfig : List QQBotConfig := [defaultCfg]

instance : Inhabited QQBotConfig := ⟨defaultCfg⟩

/-- JavaScript string defaulting x || d: an absent or empty string falls
back to the default (the empty string is falsy in JS). -/
def jsOrString (x : Option String) (d : String) : String :=
  match x with
  | none => d
  | some s => if s = "" then d else s

/-- Formatting of one record: the spread-merge of the default record with
the user record, with the ||-defaulting of the three API fields and of the
event wsUrl/wsToken fields, exactly as in formatConfig. -/
def formatOne (item : UserQQBotConfig) : QQBotConfig :=
  let d := getDefaultConfig.headI
  { appId := item.appId.getD d.appId
  , secret := item.secret.getD d.secret
  , prodApi := jsOrString item.prodApi d.prodApi
  , sandboxApi := jsOrString item.sandboxApi d.sandboxApi
  , tokenApi := jsOrString item.tokenApi d.tokenApi
  , sandbox := item.sandbox.getD d.sandbox
  , qqEnable := item.qqEnable.getD d.qqEnable
  , guildEnable := item.guildEnable.getD d.guildEnable
  , guildMode := item.guildMode.getD d.guildMode
  , exclude := item.exclude.getD d.exclude
  , regex := item.regex.getD d.regex
  , markdown :=
      { mode := (item.markdown.bind UserMarkdownCfg.mode).getD d.markdown.mode
      , id := (item.markdown.bind UserMarkdownCfg.id).getD d.markdown.id
      , kv := (item.markdown.bind UserMarkdownCfg.kv).getD d.markdown.kv }
  , event :=
      { type := (item.event.bind UserEventCfg.type).getD d.event.type
      , wsUrl := jsOrString (item.event.bind UserEventCfg.wsUrl) d.event.wsUrl
      , wsToken := jsOrString (item.event.bind UserEventCfg.wsToken) d.event.wsToken } }

/-- One step of the JS Map de-duplication: setting a key that is already
present replaces the value in place (keeping the key insertion position),
a fresh key is appended at the end. -/
def upsertCfg (acc : List (String × QQBotConfig)) (key : String) (cfg : QQBotConfig) :
    List (String × QQBotConfig) :=
  if acc.any (fun p => p.1 = key) then
    acc.map (fun p => if p.1 = key then (key, cfg) else p)
  else acc ++ [(key, cfg)]

/-- Folding one record into the de-duplication map: records whose trimmed
appId is empty are dropped. -/
def dedupStep (acc : List (String × QQBotConfig)) (cfg : QQBotConfig) :
    List (String × QQBotConfig) :=
  if cfg.appId.trim = "" then acc else upsertCfg acc cfg.appId.trim cfg

/-- The appId de-duplication at the end of formatConfig: keyed by the
trimmed appId, entries with an empty trimmed appId are dropped, and for one
appId only the last record survives (at the position of the first). -/
def dedupByAppId (l : List QQBotConfig) : List QQBotConfig :=
  (l.foldl dedupStep []).map Prod.snd

/-- formatConfig: format every record against the defaults, then
de-duplicate by appId. -/
def formatConfig (user : List UserQQBotConfig) : List QQBotConfig :=
  dedupByAppId (user.map formatOne)

/-- Cleaning of one formatted record for writing: the three API fields are
deleted when equal to their defaults, the event wsUrl/wsToken fields are
deleted when equal to their defaults, and the whole event object is deleted
when only a default type 0 remains, exactly as in cleanConfigForWrite. -/
def cleanOne (x : QQBotConfig) : UserQQBotConfig :=
  let d := getDefaultConfig.headI
  let wsUrlField : Option String :=
    if x.event.wsUrl = d.event.wsUrl then none else some x.event.wsUrl
  let wsTokenField : Option String :=
    if x.event.wsToken = d.event.wsToken then none else some x.event.wsToken
  { appId := some x.appId
  , secret := some x.secret
  , prodApi := if x.prodApi = d.prodApi then none else some x.prodApi
  , sandboxApi := if x.sandboxApi = d.sandboxApi then none else some x.sandboxApi
  , tokenApi := if x.tokenApi = d.tokenApi then none else some x.tokenApi
  , sandbox := some x.sandbox
  , qqEnable := some x.qqEnable
  , guildEnable := some x.guildEnable
  , guildMode := some x.guildMode
  , exclude := some x.exclude
  , regex := some x.regex
  , markdown := some
      { mode := some x.markdown.mode, id := some x.markdown.id, kv := some x.markdown.kv }
  , event :=
      if x.event.type = 0 ∧ wsUrlField = none ∧ wsTokenField = none then none
      else some { type := some x.event.type, wsUrl := wsUrlField, wsToken := wsTokenField } }

/-- cleanConfigForWrite: clean every record of the list. -/
def cleanConfigForWrite (l : List QQBotConfig) : List UserQQBotConfig :=
  l.map cleanOne

/-! ## Gateway wire protocol (src/types/event.ts Opcode, src/connection/webSocket.ts) -/

/-- The gateway opcodes the WebSocket handler switches on. The handler
only ever compares the numeric op against the named Opcode members, so the
embedding keeps them symbolic. -/
inductive Opcode where
  | dispatch
  | heartbeat
  | identify
  | reconnect
  | invalidSession
  | hello
  | heartbeatACK
  | unknown
deriving DecidableEq

/-- The fields of the inner d object of a frame the handler reads. -/
structure FrameData where
  heartbeat_interval : Nat
  session_id : String
deriving DecidableEq

/-- A decoded gateway frame: op, d, t, s. An absent s (null or undefined)
is none. -/
structure Frame where
  op : Opcode
  d : FrameData
  t : Option String
  s : Option Nat
deriving DecidableEq

/-- buildIntents (src/connection/webSocket.ts): the fixed base bits for
GUILDS, GUILD_MEMBERS, DIRECT_MESSAGE and GROUP_AND_C2C_EVENT, plus the
private-domain guild message bit when guildMode is 1 and the public-domain
bit otherwise. -/
def buildIntents (cfg : QQBotConfig) : Nat :=
  let intents : Nat := 0 ||| (1 <<< 0) ||| (1 <<< 1) ||| (1 <<< 12) ||| (1 <<< 25)
  if cfg.guildMode = 1 then intents ||| (1 <<< 9) else intents ||| (1 <<< 30)

/-- The fixed base bits of buildIntents. -/
def baseIntents : Nat := (1 <<< 0) ||| (1 <<< 1) ||| (1 <<< 12) ||| (1 <<< 25)

/-- The intents constant hardcoded in the legacy WebSocket handler
(src/unnamed/part_000, Identify branch). -/
def legacyIntents : Nat := 33558531

/-- One observable effect of processing a frame: the sequence / heartbeat /
session bookkeeping callbacks, the Identify send, the event emission, the
socket close and the scheduling of an auto-reconnect attempt. -/
inductive WSAction where
  | setSeq (n : Nat)
  | setHeartbeat (n : Nat)
  | sendIdentify (intents : Nat)
  | setSessionId (id : String)
  | emitEvent (fr : Frame)
  | closeSocket
  | scheduleReconnect
deriving DecidableEq

/-- The sequence bookkeeping common to every frame: s is recorded before
any other processing when present. -/
def seqActions (fr : Frame) : List WSAction :=
  match fr.s with
  | some n => [WSAction.setSeq n]
  | none => []

/-- handleWebSocketMessage (src/connection/webSocket.ts, the current
variant): the list of effects of one frame, in program order. -/
def handleWebSocketMessage (cfg : QQBotConfig) (fr : Frame) : List WSAction :=
  seqActions fr ++
    match fr.op with
    | .hello =>
        [WSAction.setHeartbeat fr.d.heartbeat_interval,
         WSAction.sendIdentify (buildIntents cfg)]
    | .dispatch =>
        (if fr.t = some "READY" then [WSAction.setSessionId fr.d.session_id] else [])
          ++ [WSAction.emitEvent fr]
    | .heartbeatACK => []
    | .reconnect => [WSAction.closeSocket, WSAction.scheduleReconnect]
    | .invalidSession => [WSAction.closeSocket]
    | _ => []

/-- The legacy variant of handleWebSocketMessage (src/unnamed/part_000):
identical dispatch except that the Identify payload hardcodes the intents
constant 33558531 and the Reconnect branch only closes the socket without
scheduling a reconnect. -/
def handleWebSocketMessageLegacy (_cfg : QQBotConfig) (fr : Frame) : List WSAction :=
  seqActions fr ++
    match fr.op with
    | .hello =>
        [WSAction.setHeartbeat fr.d.heartbeat_interval,
         WSAction.sendIdentify legacyIntents]
    | .dispatch =>
        (if fr.t = some "READY" then [WSAction.setSessionId fr.d.session_id] else [])
          ++ [WSAction.emitEvent fr]
    | .heartbeatACK => []
    | .reconnect => [WSAction.closeSocket]
    | .invalidSession => [WSAction.closeSocket]
    | _ => []

/-! ## Session cache, staleness and lifecycle (src/connection/webSocket.ts) -/

/-- The cache entry of one identity: the connectionId symbol of the owning
connection (modelled as a number) and whether a heartbeat ticker is
installed. -/
structure ConnEntry where
  connectionId : Nat
  heartbeatTimer : Bool
deriving DecidableEq

/-- The mutable per-identity state of the session manager: the connection
attempt counter (attemptSeq), the session cache entry for the identity,
the reconnect counter, and the list of frames emitted to the dispatcher. -/
structure WSState where
  attemptSeq : Nat
  conn : Option ConnEntry
  reconnectAttempts : Option Nat
  emitted : List Frame
deriving DecidableEq

/-- The per-connection close function: it only clears the cache entry (and
with it the heartbeat ticker) when the entry still carries this
connectionId, leaving a newer connection untouched. -/
def closeConn (connectionId : Nat) (st : WSState) : WSState :=
  match st.conn with
  | some c => if c.connectionId = connectionId then { st with conn := none } else st
  | none => st

/-- stopWebSocketConnection: bumps the attempt counter so every in-flight
attempt becomes stale, clears the reconnect counter, and closes the cached
connection when one exists (returning whether one existed). -/
def stopWebSocketConnection (st : WSState) : WSState × Bool :=
  let st1 : WSState := { st with attemptSeq := st.attemptSeq + 1, reconnectAttempts := none }
  match st1.conn with
  | some c => (closeConn c.connectionId st1, true)
  | none => (st1, false)

/-- The external calls the open path makes after passing its guards. -/
inductive ExtCall where
  | getGateway
deriving DecidableEq

/-- The synchronous entry of createWebSocketConnection: the appId and
event-type guards (which return false at once), then the attempt counter
increment, the close of any existing cached connection, and the start of
the asynchronous gateway fetch. The first component is some false when the
call resolved immediately, none when it continues asynchronously. -/
def createWebSocketConnectionEntry (cfg : QQBotConfig) (st : WSState) :
    Option Bool × WSState × List ExtCall :=
  if cfg.appId = "default" then (some false, st, [])
  else if cfg.event.type ≠ 2 then (some false, st, [])
  else
    let st1 : WSState := { st with attemptSeq := st.attemptSeq + 1 }
    let st2 : WSState :=
      match st1.conn with
      | some c => closeConn c.connectionId st1
      | none => st1
    (none, st2, [ExtCall.getGateway])

/-- The state effect of one handler action. Emitting appends to the
emitted list; installing the heartbeat marks the ticker on the cached
entry; the socket close and the reconnect scheduling act on the socket and
the timer queue, not on this state. -/
def applyAction (st : WSState) (act : WSAction) : WSState :=
  match act with
  | .emitEvent fr => { st with emitted := st.emitted ++ [fr] }
  | .setHeartbeat _ =>
      match st.conn with
      | some c => { st with conn := some { c with heartbeatTimer := true } }
      | none => st
  | _ => st

/-- Applying a handler action list in order. -/
def applyActions (acts : List WSAction) (st : WSState) : WSState :=
  acts.foldl applyAction st

/-- The message callback of a socket that captured attempt number a and
connectionId cid: a stale attempt (captured value no longer the current
counter) returns at once, as does a socket that is no longer the cached
connection; otherwise the frame is processed by handleWebSocketMessage. -/
def onMessage (cfg : QQBotConfig) (a : Nat) (cid : Nat) (fr : Frame) (st : WSState) : WSState :=
  if st.attemptSeq ≠ a then st
  else
    match st.conn with
    | none => st
    | some c =>
        if c.connectionId ≠ cid then st
        else applyActions (handleWebSocketMessage cfg fr) st

/-- The operations that can touch the per-identity state after a stop: a
further stop, the entry of a new open attempt, and the delivery of a frame
to some socket. -/
inductive WSStep where
  | stop
  | openEntry (cfg : QQBotConfig)
  | deliver (cfg : QQBotConfig) (a : Nat) (cid : Nat) (fr : Frame)

/-- The state effect of one operation. -/
def applyStep (st : WSState) (s : WSStep) : WSState :=
  match s with
  | .stop => (stopWebSocketConnection st).1
  | .openEntry cfg => (createWebSocketConnectionEntry cfg st).2.1
  | .deliver cfg a cid fr => onMessage cfg a cid fr st

/-- The state effect of a sequence of operations. -/
def applySteps (steps : List WSStep) (st : WSState) : WSState :=
  steps.foldl applyStep st

/-! ## Auto-reconnect policy (attemptReconnect, src/connection/webSocket.ts) -/

/-- The recursion of attemptReconnect. Arguments:

* outcomes k: the result of the createWebSocketConnection call made by the
  invocation whose currentAttempt is k;
* interfere k: what the reconnect counter holds when the backoff delay of
  the invocation with currentAttempt k elapses, when another party (a stop
  or a newer chain) rewrote it during the delay, none when nobody touched it;
* the fuel is 5 - currentAttempt on entry, so the base case coincides with
  the max-attempts guard (fuel 0 exactly when currentAttempt has reached 5,
  where the code deletes the counter and returns).

The result is the final reconnect counter together with the list of
reconnection attempts actually performed, each as (attempt number, delay
waited in milliseconds before it). -/
def attemptReconnectGo (outcomes : Nat → Bool) (interfere : Nat → Option (Option Nat)) :
    Nat → Nat → Option Nat → Option Nat × List (Nat × Nat)
  | 0, _, _ => (none, [])
  | fuel + 1, currentAttempt, _store =>
      if 5 ≤ currentAttempt then (none, [])
      else
        let attempt := currentAttempt + 1
        let stored : Option Nat := some attempt
        let delay := min (1000 * 2 ^ currentAttempt) 16000
        let observed : Option Nat :=
          match interfere currentAttempt with
          | some s => s
          | none => stored
        if observed ≠ some attempt then (observed, [])
        else if outcomes currentAttempt then (none, [(attempt, delay)])
        else
          let r := attemptReconnectGo outcomes interfere fuel attempt observed
          (r.1, (attempt, delay) :: r.2)

/-- attemptReconnect: the entry point with currentAttempt as in the source;
the store argument is the reconnect counter at call time. -/
def attemptReconnect (outcomes : Nat → Bool) (interfere : Nat → Option (Option Nat))
    (currentAttempt : Nat) (store : Option Nat) : Option Nat × List (Nat × Nat) :=
  attemptReconnectGo outcomes interfere (5 - currentAttempt) currentAttempt store

/-! ## Resolution of one open attempt (the promise of createWebSocketConnection) -/

/-- The occurrences, in time order, that can resolve the promise of one
open attempt. The stale flag of an occurrence records whether the
staleness guard at the head of the corresponding callback fired (for a
frame it also covers the cache-currency check of the message callback);
the gatewayResult occurrence carries the fetched gateway url and the
cached access token looked up right after it. -/
inductive ConnEvent where
  | timeout
  | gatewayFail (stale : Bool)
  | gatewayResult (stale : Bool) (url : Option String) (token : Option String)
  | socketClose (stale : Bool)
  | socketError (stale : Bool)
  | frame (stale : Bool) (fr : Frame)
deriving DecidableEq

/-- What one occurrence passes to resolveOnce: some false for the timeout,
a failed gateway fetch, a missing url, a missing token, a close or an
error; some true for a READY dispatch frame; none when the occurrence does
not resolve (a stale callback returns first, other frames only stream). -/
def resolveValue : ConnEvent → Option Bool
  | .timeout => some false
  | .gatewayFail stale => if stale then none else some false
  | .gatewayResult true _ _ => some false
  | .gatewayResult false none _ => some false
  | .gatewayResult false (some _) none => some false
  | .gatewayResult false (some _) (some _) => none
  | .socketClose stale => if stale then none else some false
  | .socketError stale => if stale then none else some false
  | .frame stale fr =>
      if stale then none
      else if fr.op = Opcode.dispatch ∧ fr.t = some "READY" then some true
      else none

/-- resolveOnce: the first resolution wins, later occurrences are ignored. -/
def runOpen : List ConnEvent → Option Bool → Option Bool
  | [], acc => acc
  | e :: rest, acc =>
      match acc with
      | some v => runOpen rest (some v)
      | none => runOpen rest (resolveValue e)

/-- The value the open attempt resolves with after the given occurrences
(none when nothing resolved it yet). -/
def openResult (evs : List ConnEvent) : Option Bool :=
  runOpen evs none

/-! ## Outbound message composer (src/core/adapter/normal.ts, markdown.ts) -/

/-- The target scenes of sendMsg. -/
inductive Scene where
  | friend
  | group
  | guild
  | direct
deriving DecidableEq

/-- The discriminator of a passive-reply binding: a message id or an event
id. -/
inductive PasType where
  | msg
  | event
deriving DecidableEq

/-- The passive-reply bucket of a draft (list.pasmsg): the bound id (empty
string when absent, as in the source where the falsiness of msg_id is the
presence test), the sequence field, the id discriminator and the wakeup
flag. -/
structure PasmsgDraft where
  msg_id : String
  msg_seq : Nat
  type : PasType
  is_wakeup : Bool
deriving DecidableEq

/-- A generic message element, by tag. The data of each tag is reduced to
the fields the composer reads; tags the composer never matches on are the
other constructor. -/
inductive Element where
  | text (s : String)
  | image (file : String)
  | at (targetId : String)
  | face (id : String)
  | reply (messageId : String)
  | pasmsg (source : PasType) (id : String) (is_wakeup : Bool)
  | keyboard (data : String)
  | button (data : String)
  | markdown (data : String)
  | markdownTpl (data : String)
  | video (file : String)
  | record (file : String)
  | other (tag : String)
deriving DecidableEq

/-- The result of hendleText: the rewritten text, a single QR image (or
the merged composite), and the individual QR list when merging failed. -/
structure HandleTextResult where
  text : String
  qr : Option String
  qrs : List String
deriving DecidableEq

/-- A QQ (private/group) wire payload, as built by QQdMsgOptions. -/
inductive QQPayload where
  | text (content : String)
  | media (file_info : String)
deriving DecidableEq

/-- A guild (channel/direct) wire payload: a JSON body built by
GuildMsgOptions (text with an optional inline image url, or an image url),
or a multipart form carrying a local image (with an optional caption). -/
inductive GuildPayload where
  | text (content : String) (image : Option String)
  | image (url : String)
  | form (content : Option String) (file_image : String)
deriving DecidableEq

/-- The draft accumulator of sendQQMsg (initList for the qq surface). -/
structure QQDraft where
  content : List String
  image : List String
  pasmsg : PasmsgDraft
  keyboard : List String
  button : List String
  markdown : List String
  markdownTpl : List String
  list : List QQPayload
deriving DecidableEq

/-- The draft accumulator of sendGuildMsg (initList for the guild
surface). -/
structure GuildDraft where
  content : List String
  image : List String
  imageUrls : List String
  imageFiles : List String
  pasmsg : PasmsgDraft
  reply : Option String
  keyboard : List String
  button : List String
  markdown : List String
  markdownTpl : List String
  list : List GuildPayload
deriving DecidableEq

/-- The external collaborators of the composer, as abstract functions:
hendleText (URL extraction, QR rendering and merging), the local-file
upload of videos and records (fileToUrl), the rich-media upload returning
a file_info, the image upload (base64 then uploadMedia), the local-file
read for guild multipart payloads, and the markdownToButton
post-processing of the payload list, whose code lives outside the
analysed sources (src/core/adapter/adapter.ts). Every theorem below is
quantified over all behaviours of these collaborators. -/
structure ComposerParams where
  hendleText : String → HandleTextResult
  fileToUrl : String → String
  uploadMedia : String → String
  uploadImage : String → String
  bufferOf : String → String
  markdownToButton : QQDraft → List QQPayload → List QQPayload
  markdownToButtonGuild : GuildDraft → List GuildPayload → List GuildPayload

/-- The empty draft of one send call; the initial passive-reply sequence
seed is the msg_seq value initList put there. -/
def initQQDraft (seed : Nat) : QQDraft :=
  { content := [], image := [], keyboard := [], button := [], markdown := []
  , markdownTpl := [], list := []
  , pasmsg := { msg_id := "", msg_seq := seed, type := PasType.msg, is_wakeup := false } }

/-- The empty guild draft of one send call. -/
def initGuildDraft (seed : Nat) : GuildDraft :=
  { content := [], image := [], imageUrls := [], imageFiles := [], reply := none, keyboard := []
  , button := [], markdown := [], markdownTpl := [], list := []
  , pasmsg := { msg_id := "", msg_seq := seed, type := PasType.msg, is_wakeup := false } }

/-- One iteration of the classification loop of the normal sendQQMsg, in
the order of the if-chain of the source. A tag with no branch (at, face
and every unknown tag) falls through to the debug log and leaves the draft
unchanged. -/
def classifyQQStep (P : ComposerParams) (scene : Scene) (d : QQDraft) : Element → QQDraft
  | .text s =>
      let h := P.hendleText s
      { d with content := d.content ++ [h.text]
             , image := d.image ++ (match h.qr with | some q => [q] | none => h.qrs) }
  | .image file => { d with image := d.image ++ [file] }
  | .reply messageId =>
      if d.pasmsg.msg_id = "" then { d with pasmsg := { d.pasmsg with msg_id := messageId } }
      else d
  | .pasmsg source id is_wakeup =>
      let p := d.pasmsg
      let p := if source = PasType.event then { p with type := PasType.event } else p
      let p :=
        if is_wakeup ∧ scene = Scene.friend then { p with is_wakeup := true, msg_id := "" }
        else { p with msg_id := id }
      { d with pasmsg := p }
  | .keyboard data => { d with keyboard := d.keyboard ++ [data] }
  | .button data => { d with button := d.button ++ [data] }
  | .markdown data => { d with markdown := d.markdown ++ [data] }
  | .markdownTpl data => { d with markdownTpl := d.markdownTpl ++ [data] }
  | .video file =>
      let url := if file.startsWith "http" then file else P.fileToUrl file
      { d with list := d.list ++ [QQPayload.media (P.uploadMedia url)] }
  | .record file =>
      let url := if file.startsWith "http" then file else P.fileToUrl file
      { d with list := d.list ++ [QQPayload.media (P.uploadMedia url)] }
  | .at _ => d
  | .face _ => d
  | .other _ => d

/-- Whether a tag has a branch in the classification loop of the normal
sendQQMsg; a tag without one is skipped with a debug log entry. -/
def qqSupported : Element → Bool
  | .at _ => false
  | .face _ => false
  | .other _ => false
  | _ => true

/-- The debug log entries of the classification loop of sendQQMsg: one per
element without a branch, carrying its tag. -/
def qqSkipLogs (es : List Element) : List Element :=
  es.filter (fun e => ! qqSupported e)

/-- The full classification loop of the normal sendQQMsg. -/
def classifyQQ (P : ComposerParams) (scene : Scene) (es : List Element) (d : QQDraft) :
    QQDraft :=
  es.foldl (classifyQQStep P scene) d

/-- The assembly of sendQQMsg after classification: a leading text payload
when any text accumulated, then the payloads queued during the loop (the
uploaded videos and records), then one uploaded media payload per image. -/
def assembleQQ (P : ComposerParams) (d : QQDraft) : List QQPayload :=
  let l := d.list
  let l := if d.content = [] then l else QQPayload.text (String.join d.content) :: l
  l ++ d.image.map (fun url => QQPayload.media (P.uploadImage url))

/-- The fallback of sendQQMsg: when no payload at all was produced, a
single literal unsupported-message-type text payload is sent instead. -/
def finalizeQQ (l : List QQPayload) : List QQPayload :=
  if l = [] then [QQPayload.text "不支持发送的消息类型"] else l

/-- The wire payload list one call of the normal sendQQMsg sends, before
the passive-reply fields are stamped on: classify, assemble, apply the
markdownToButton post-processing, fall back when empty. -/
def sendQQMsgPayloads (P : ComposerParams) (scene : Scene) (seed : Nat)
    (es : List Element) : List QQPayload :=
  let d := classifyQQ P scene es (initQQDraft seed)
  finalizeQQ (P.markdownToButton d (assembleQQ P d))

/-- One iteration of the classification loop of the normal sendGuildMsg.
A tag with no branch (video, record and every unknown tag) falls through
to the debug log and leaves the draft unchanged. -/
def classifyGuildStep (P : ComposerParams) (scene : Scene) (d : GuildDraft) :
    Element → GuildDraft
  | .text s =>
      let h := P.hendleText s
      { d with content := d.content ++ [h.text]
             , image := d.image ++ (match h.qr with | some q => [q] | none => h.qrs) }
  | .image file =>
      if file.startsWith "http" then { d with imageUrls := d.imageUrls ++ [file] }
      else { d with imageFiles := d.imageFiles ++ [file] }
  | .at targetId =>
      if scene = Scene.guild then
        { d with content := d.content ++
            [if targetId = "all" then "@everyone" else "<@" ++ targetId ++ ">"] }
      else d
  | .pasmsg source id _ =>
      let p := d.pasmsg
      let p := if source = PasType.event then { p with type := PasType.event } else p
      { d with pasmsg := { p with msg_id := id } }
  | .reply messageId => { d with reply := some messageId }
  | .face id => { d with content := d.content ++ ["<emoji:" ++ id ++ ">"] }
  | .keyboard data => { d with keyboard := d.keyboard ++ [data] }
  | .button data => { d with button := d.button ++ [data] }
  | .markdown data => { d with markdown := d.markdown ++ [data] }
  | .markdownTpl data => { d with markdownTpl := d.markdownTpl ++ [data] }
  | .video _ => d
  | .record _ => d
  | .other _ => d

/-- Whether a tag has a branch in the classification loop of sendGuildMsg. -/
def guildSupported : Element → Bool
  | .video _ => false
  | .record _ => false
  | .other _ => false
  | _ => true

/-- The debug log entries of the classification loop of sendGuildMsg. -/
def guildSkipLogs (es : List Element) : List Element :=
  es.filter (fun e => ! guildSupported e)

/-- The full classification loop of sendGuildMsg. -/
def classifyGuild (P : ComposerParams) (scene : Scene) (es : List Element) (d : GuildDraft) :
    GuildDraft :=
  es.foldl (classifyGuildStep P scene) d

/-- The assembly of sendGuildMsg: when any text accumulated, the leading
payload combines it with the first remote image url when one exists, else
with the first local image file as a multipart form, else stands alone;
then one payload per remaining remote url and one multipart form per
remaining local file. -/
def assembleGuild (P : ComposerParams) (d : GuildDraft) : List GuildPayload :=
  let (l, urls, files) :=
    if d.content = [] then (d.list, d.imageUrls, d.imageFiles)
    else
      match d.imageUrls with
      | u :: us => (GuildPayload.text (String.join d.content) (some u) :: d.list, us, d.imageFiles)
      | [] =>
          match d.imageFiles with
          | f :: fs =>
              (GuildPayload.form (some (String.join d.content)) (P.bufferOf f) :: d.list,
               d.imageUrls, fs)
          | [] => (GuildPayload.text (String.join d.content) none :: d.list, d.imageUrls, [])
  l ++ urls.map GuildPayload.image
    ++ files.map (fun f => GuildPayload.form none (P.bufferOf f))

/-- The fallback of sendGuildMsg: when no payload at all was produced, a
single literal unsupported-message-type text payload is sent instead. -/
def finalizeGuild (l : List GuildPayload) : List GuildPayload :=
  if l = [] then [GuildPayload.text "不支持发送的消息类型" none] else l

/-- The wire payload list one call of the normal sendGuildMsg sends,
before the passive-reply fields are stamped on. -/
def sendGuildMsgPayloads (P : ComposerParams) (scene : Scene) (seed : Nat)
    (es : List Element) : List GuildPayload :=
  let d := classifyGuild P scene es (initGuildDraft seed)
  finalizeGuild (P.markdownToButtonGuild d (assembleGuild P d))

/-! ## Passive-reply sequencing (normal.ts lines 223-246, markdown.ts lines 185-215) -/

/-- The passive-reply fields stamped on one outgoing QQ payload. -/
structure SentQQ where
  msg_seq : Option Nat
  msg_id : Option String
  event_id : Option String
  is_wakeup : Bool
deriving DecidableEq

/-- A payload with no passive-reply fields. -/
def emptySentQQ : SentQQ :=
  { msg_seq := none, msg_id := none, event_id := none, is_wakeup := false }

/-- The passive-reply stamping of the normal sendQQMsg: the closure is
built once per send call; with a wakeup binding on the friend scene it
only sets is_wakeup, without a bound id it does nothing, and with a bound
id the draft counter is incremented ONCE (before the send loop) and every
payload receives that same value together with the msg_id or event_id. -/
def applyPasmsgNormal (scene : Scene) (p : PasmsgDraft) (items : List QQPayload) :
    List (QQPayload × SentQQ) :=
  if p.is_wakeup ∧ scene = Scene.friend then
    items.map (fun it => (it, { emptySentQQ with is_wakeup := true }))
  else if p.msg_id = "" then
    items.map (fun it => (it, emptySentQQ))
  else
    let seq := p.msg_seq + 1
    if p.type = PasType.msg then
      items.map (fun it => (it, { emptySentQQ with msg_seq := some seq, msg_id := some p.msg_id }))
    else
      items.map (fun it => (it, { emptySentQQ with msg_seq := some seq, event_id := some p.msg_id }))

/-- Stamping a list of payloads with a per-payload counter that starts at
the given index and increments on every call (the msgSeqCounter++ of the
markdown closure). -/
def applyWithCounter (f : Nat → SentQQ) : Nat → List QQPayload → List (QQPayload × SentQQ)
  | _, [] => []
  | i, it :: rest => (it, f i) :: applyWithCounter f (i + 1) rest

/-- The passive-reply stamping of the markdown sendQQMsg: with a wakeup
binding on the friend scene only is_wakeup is set; without a bound id the
base is the send-time clock modulo 2^32 - 1 and the counter increments per
payload; with a bound id the base is the draft msg_seq and the counter
increments per payload, the id going to msg_id or event_id by the
discriminator. -/
def applyPasmsgMarkdown (scene : Scene) (now : Nat) (p : PasmsgDraft)
    (items : List QQPayload) : List (QQPayload × SentQQ) :=
  if p.is_wakeup ∧ scene = Scene.friend then
    items.map (fun it => (it, { emptySentQQ with is_wakeup := true }))
  else if p.msg_id = "" then
    let baseSeq := now % 4294967295
    applyWithCounter (fun i => { emptySentQQ with msg_seq := some (baseSeq + i) }) 0 items
  else
    let baseSeq := p.msg_seq
    applyWithCounter (fun i =>
      if p.type = PasType.msg then
        { emptySentQQ with msg_seq := some (baseSeq + i), msg_id := some p.msg_id }
      else
        { emptySentQQ with msg_seq := some (baseSeq + i), event_id := some p.msg_id }) 0 items

/-! ## Concrete inputs used by witnesses and counterexamples -/

/-- A Reconnect control frame carrying a sequence number. -/
def frameReconnectEx : Frame :=
  { op := Opcode.reconnect, d := { heartbeat_interval := 0, session_id := "" }
  , t := none, s := some 5 }

/-- An InvalidSession control frame. -/
def frameInvalidEx : Frame :=
  { op := Opcode.invalidSession, d := { heartbeat_interval := 0, session_id := "" }
  , t := none, s := none }

/-- A Hello frame announcing a 30-second heartbeat interval. -/
def helloFrameEx : Frame :=
  { op := Opcode.hello, d := { heartbeat_interval := 30000, session_id := "" }
  , t := none, s := none }

/-- A READY dispatch frame. -/
def readyFrameEx : Frame :=
  { op := Opcode.dispatch, d := { heartbeat_interval := 0, session_id := "sess-1" }
  , t := some "READY", s := some 1 }

/-- A passive-reply binding with a bound message id and seed sequence 7. -/
def pasmsgDraftEx : PasmsgDraft :=
  { msg_id := "100", msg_seq := 7, type := PasType.msg, is_wakeup := false }

/-- A two-payload list, so the per-payload sequence numbering is visible. -/
def itemsEx : List QQPayload := [QQPayload.text "a", QQPayload.text "b"]

/-- A session-manager state with two past attempts and a cached connection. -/
def wsStateEx : WSState :=
  { attemptSeq := 2
  , conn := some { connectionId := 41, heartbeatTimer := true }
  , reconnectAttempts := none
  , emitted := [] }

/-- The invariant that every record produced by formatOne satisfies: the
three API urls and the event wsUrl are never the empty string (their
defaults are non-empty and the || defaulting removes the empty string). -/
def cfgInv (x : QQBotConfig) : Prop :=
  x.prodApi ≠ "" ∧ x.sandboxApi ≠ "" ∧ x.tokenApi ≠ "" ∧ x.event.wsUrl ≠ ""

/-- The invariant of the de-duplication accumulator: every pair is keyed
by the trimmed appId of its record, keys are non-empty, and keys are
pairwise distinct. -/
def AccInv (acc : List (String × QQBotConfig)) : Prop :=
  (∀ p ∈ acc, p.1 = p.2.appId.trim ∧ p.1 ≠ "") ∧ (acc.map Prod.fst).Nodup

/-! ## The close callback and the consequence cascade of a control frame -/

/-- The close code the close callback observes when the socket was closed
locally by a codeless socket.close(): the external transport library
reports 1005 (no status received, per the WebSocket close handshake),
which is neither the normal (1000) nor the going-away (1001) closure
code. This value lives in the transport library, outside this
repository's sources. -/
def localCloseCode : Nat := 1005

/-- The close callback of createWebSocketConnection
(src/connection/webSocket.ts lines 502-511): a stale callback returns at
once; a live one captures the readiness flag, runs the session close
routine, resolves the open promise false, and schedules an auto-reconnect
exactly when the session had reached READY and the reported close code is
neither 1000 nor 1001. -/
def onCloseActions (stale : Bool) (wasReady : Bool) (code : Nat) : List WSAction :=
  if stale then []
  else
    WSAction.closeSocket ::
      (if wasReady ∧ code ≠ 1000 ∧ code ≠ 1001 then [WSAction.scheduleReconnect] else [])

/-- The full consequence of one control frame on a live session: the
actions of handleWebSocketMessage followed, whenever the handler called
socket.close(), by the actions of the close callback that the transport
then invokes on the same (still live) session, wasReady being the
readiness flag at that moment and closeCode the reported close code. -/
def frameCascade (cfg : QQBotConfig) (fr : Frame) (wasReady : Bool) (closeCode : Nat) :
    List WSAction :=
  handleWebSocketMessage cfg fr
    ++ (if WSAction.closeSocket ∈ handleWebSocketMessage cfg fr then
          onCloseActions false wasReady closeCode
        else [])

/-! ## C10: the synchronous guards of createWebSocketConnection -/

/-- C10: createWebSocketConnection returns false immediately, without
incrementing the attempt counter, contacting the gateway or touching the
session cache, when the appId is the literal default or the event delivery
mode is not WebSocket (event.type different from 2). -/
theorem createWebSocketConnection_guard (cfg : QQBotConfig) (st : WSState)
    (h : cfg.appId = "default" ∨ cfg.event.type ≠ 2) :
    createWebSocketConnectionEntry cfg st = (some false, st, []) := by
  rcases h with h | h
  · simp [createWebSocketConnectionEntry, h]
  · by_cases h2 : cfg.appId = "default" <;>
      simp [createWebSocketConnectionEntry, h, h2]

/-- Witness for C10: a non-WebSocket configuration at a concrete state. -/
theorem createWebSocketConnection_guard_witness :
    createWebSocketConnectionEntry { defaultCfg with appId := "123" } wsStateEx
      = (some false, wsStateEx, []) :=
  createWebSocketConnection_guard { defaultCfg with appId := "123" } wsStateEx
    (Or.inr (by decide))

/-! ## C6: cache ownership of close -/

/-- C6: the per-connection close only ever clears the session-cache entry
(and with it the heartbeat timer) when the entry still carries the closing
connectionId; closing a superseded connection leaves the state, the newer
entry and its heartbeat timer untouched. -/
theorem close_cache_ownership (st : WSState) (c : ConnEntry) (cid : Nat)
    (h : st.conn = some c) :
    (c.connectionId ≠ cid → closeConn cid st = st)
    ∧ (c.connectionId = cid → (closeConn cid st).conn = none) := by
  constructor
  · intro hne
    simp [closeConn, h, hne]
  · intro heq
    simp [closeConn, h, heq]

/-- Witness for C6: a cached connection 41 survives a close of the
superseded connection 7 with its heartbeat timer, and is deleted by its
own close. -/
theorem close_cache_ownership_witness :
    (closeConn 7 wsStateEx = wsStateEx)
    ∧ (closeConn 41 wsStateEx).conn = none :=
  ⟨(close_cache_ownership wsStateEx { connectionId := 41, heartbeatTimer := true } 7
      rfl).1 (by decide),
   (close_cache_ownership wsStateEx { connectionId := 41, heartbeatTimer := true } 41
      rfl).2 rfl⟩

/-! ## C4: reconnect and invalid-session control frames -/

/-- Counterexample to C4: an InvalidSession frame received by a session
that had reached READY closes the socket, and the close callback this
triggers (reported close code 1005, neither 1000 nor 1001) schedules an
auto-reconnect — so a reconnect attempt IS scheduled as a consequence of
an InvalidSession frame. -/
theorem invalidSession_reconnect_counterexample :
    frameCascade defaultCfg frameInvalidEx true localCloseCode
      = [WSAction.closeSocket, WSAction.closeSocket, WSAction.scheduleReconnect]
    ∧ WSAction.scheduleReconnect ∈ frameCascade defaultCfg frameInvalidEx true localCloseCode
    ∧ frameInvalidEx.op = Opcode.invalidSession := by
  refine ⟨by decide, by decide, rfl⟩

/-- C4 as amended: a Reconnect control frame makes the handler close the
socket and schedule an auto-reconnect directly; an InvalidSession control
frame makes the handler close the socket and schedule no reconnect
itself, but the close callback that the close triggers schedules an
auto-reconnect exactly when the session had reached READY and the
reported close code is neither 1000 nor 1001 (which the codeless local
close code 1005 satisfies); a session that had not reached READY gets no
reconnect from the InvalidSession cascade. -/
theorem reconnect_invalidSession_amended (cfg : QQBotConfig) (fr : Frame) :
    (fr.op = Opcode.reconnect →
      handleWebSocketMessage cfg fr
        = seqActions fr ++ [WSAction.closeSocket, WSAction.scheduleReconnect])
    ∧ (fr.op = Opcode.invalidSession →
      handleWebSocketMessage cfg fr = seqActions fr ++ [WSAction.closeSocket]
      ∧ WSAction.scheduleReconnect ∉ handleWebSocketMessage cfg fr)
    ∧ (∀ wasReady code, onCloseActions true wasReady code = [])
    ∧ (∀ wasReady code,
        WSAction.scheduleReconnect ∈ onCloseActions false wasReady code
          ↔ (wasReady = true ∧ code ≠ 1000 ∧ code ≠ 1001))
    ∧ (fr.op = Opcode.invalidSession →
        WSAction.scheduleReconnect ∈ frameCascade cfg fr true localCloseCode
        ∧ WSAction.scheduleReconnect ∉ frameCascade cfg fr false localCloseCode) := by
  have hrec : fr.op = Opcode.reconnect →
      handleWebSocketMessage cfg fr
        = seqActions fr ++ [WSAction.closeSocket, WSAction.scheduleReconnect] := by
    intro h
    simp [handleWebSocketMessage, h]
  have hinv : fr.op = Opcode.invalidSession →
      handleWebSocketMessage cfg fr = seqActions fr ++ [WSAction.closeSocket]
      ∧ WSAction.scheduleReconnect ∉ handleWebSocketMessage cfg fr := by
    intro h
    have he : handleWebSocketMessage cfg fr = seqActions fr ++ [WSAction.closeSocket] := by
      simp [handleWebSocketMessage, h]
    refine ⟨he, ?_⟩
    rw [he]
    cases hs : fr.s <;> simp [seqActions, hs]
  refine ⟨hrec, hinv, ?_, ?_, ?_⟩
  · intro wasReady code
    simp [onCloseActions]
  · intro wasReady code
    by_cases h : (wasReady = true ∧ code ≠ 1000 ∧ code ≠ 1001) <;>
      simp [onCloseActions, h]
  · intro h
    obtain ⟨he, -⟩ := hinv h
    have hmem : WSAction.closeSocket ∈ handleWebSocketMessage cfg fr := by
      rw [he]
      simp
    constructor
    · unfold frameCascade
      rw [if_pos hmem]
      simp [onCloseActions, localCloseCode]
    · unfold frameCascade
      rw [if_pos hmem, he]
      have hc : onCloseActions false false localCloseCode = [WSAction.closeSocket] := by
        decide
      rw [hc]
      cases hs : fr.s <;> simp [seqActions, hs]

/-- Witness for the amended C4: concrete Reconnect and InvalidSession
frames, the latter cascading on a post-READY and a pre-READY session. -/
theorem reconnect_invalidSession_amended_witness :
    (handleWebSocketMessage defaultCfg frameReconnectEx
      = seqActions frameReconnectEx ++ [WSAction.closeSocket, WSAction.scheduleReconnect])
    ∧ (handleWebSocketMessage defaultCfg frameInvalidEx
        = seqActions frameInvalidEx ++ [WSAction.closeSocket]
      ∧ WSAction.scheduleReconnect ∉ handleWebSocketMessage defaultCfg frameInvalidEx)
    ∧ (WSAction.scheduleReconnect ∈ frameCascade defaultCfg frameInvalidEx true localCloseCode
      ∧ WSAction.scheduleReconnect ∉ frameCascade defaultCfg frameInvalidEx false localCloseCode) :=
  ⟨(reconnect_invalidSession_amended defaultCfg frameReconnectEx).1 rfl,
   (reconnect_invalidSession_amended defaultCfg frameInvalidEx).2.1 rfl,
   (reconnect_invalidSession_amended defaultCfg frameInvalidEx).2.2.2.2 rfl⟩

/-! ## C7: the intents bitmask of the Identify frame -/

/-- Counterexample to C7: the legacy WebSocket handler answers a Hello
frame with an Identify whose intents are the hardcoded 33558531, which is
exactly the fixed base bits and carries NEITHER of the two guild-text
message bits, so not every Identify frame carries the base plus exactly
one of the two bits. -/
theorem intents_hardcoded_counterexample :
    handleWebSocketMessageLegacy defaultCfg helloFrameEx
      = [WSAction.setHeartbeat 30000, WSAction.sendIdentify legacyIntents]
    ∧ legacyIntents = baseIntents
    ∧ ¬ (legacyIntents = baseIntents ||| (1 <<< 9)
         ∨ legacyIntents = baseIntents ||| (1 <<< 30)) := by
  refine ⟨rfl, by decide, by decide⟩

/-- C7 as amended: the intents derived by buildIntents equal the fixed
base bits plus exactly one of the two mutually exclusive guild-text bits
(1 shifted by 9 in private domain, guildMode 1; 1 shifted by 30
otherwise), while the legacy handler hardcodes 33558531 in its Identify,
which equals the base bits alone. -/
theorem buildIntents_amended (cfg : QQBotConfig) :
    (cfg.guildMode = 1 →
      buildIntents cfg = baseIntents ||| (1 <<< 9)
      ∧ Nat.testBit (buildIntents cfg) 9 = true
      ∧ Nat.testBit (buildIntents cfg) 30 = false)
    ∧ (cfg.guildMode ≠ 1 →
      buildIntents cfg = baseIntents ||| (1 <<< 30)
      ∧ Nat.testBit (buildIntents cfg) 9 = false
      ∧ Nat.testBit (buildIntents cfg) 30 = true)
    ∧ (∀ fr : Frame, fr.op = Opcode.hello →
      handleWebSocketMessageLegacy cfg fr
        = seqActions fr ++ [WSAction.setHeartbeat fr.d.heartbeat_interval,
                            WSAction.sendIdentify legacyIntents]
      ∧ legacyIntents = baseIntents) := by
  refine ⟨?_, ?_, ?_⟩
  · intro h
    have hb : buildIntents cfg = baseIntents ||| (1 <<< 9) := by
      simp [buildIntents, baseIntents, h]
    rw [hb]
    refine ⟨rfl, by decide, by decide⟩
  · intro h
    have hb : buildIntents cfg = baseIntents ||| (1 <<< 30) := by
      simp [buildIntents, baseIntents, h]
    rw [hb]
    refine ⟨rfl, by decide, by decide⟩
  · intro fr h
    exact ⟨by simp [handleWebSocketMessageLegacy, h], by decide⟩

/-- Witness for the amended C7: the default configuration (public domain)
and a private-domain configuration, plus the legacy Hello answer. -/
theorem buildIntents_amended_witness :
    (buildIntents { defaultCfg with guildMode := 1 } = baseIntents ||| (1 <<< 9)
      ∧ Nat.testBit (buildIntents { defaultCfg with guildMode := 1 }) 9 = true
      ∧ Nat.testBit (buildIntents { defaultCfg with guildMode := 1 }) 30 = false)
    ∧ (buildIntents defaultCfg = baseIntents ||| (1 <<< 30)
      ∧ Nat.testBit (buildIntents defaultCfg) 9 = false
      ∧ Nat.testBit (buildIntents defaultCfg) 30 = true)
    ∧ (handleWebSocketMessageLegacy defaultCfg helloFrameEx
        = seqActions helloFrameEx ++ [WSAction.setHeartbeat helloFrameEx.d.heartbeat_interval,
                                      WSAction.sendIdentify legacyIntents]
      ∧ legacyIntents = baseIntents) :=
  ⟨(buildIntents_amended { defaultCfg with guildMode := 1 }).1 rfl,
   (buildIntents_amended defaultCfg).2.1 (by decide),
   (buildIntents_amended defaultCfg).2.2 helloFrameEx rfl⟩

/-! ## C1: passive-reply sequence numbering -/

lemma applyWithCounter_map_seq (f : Nat → SentQQ) (g : Nat → Nat)
    (hf : ∀ k, (f k).msg_seq = some (g k)) :
    ∀ (i : Nat) (items : List QQPayload),
      (applyWithCounter f i items).map (fun r => r.2.msg_seq)
        = (List.range items.length).map (fun k => some (g (i + k))) := by
  intro i items
  induction items generalizing i with
  | nil => simp [applyWithCounter]
  | cons it rest ih =>
      simp only [applyWithCounter, List.map_cons, List.length_cons,
        List.range_succ_eq_map, List.map_map]
      refine congrArg₂ _ (by simpa using hf i) ?_
      rw [ih (i + 1)]
      refine List.map_congr_left ?_
      intro k _
      have h : i + 1 + k = i + (k + 1) := by omega
      simp [Function.comp, h]

lemma applyWithCounter_seqs (f : Nat → SentQQ) (g : Nat → Nat)
    (hf : ∀ k, (f k).msg_seq = some (g k)) :
    ∀ (i : Nat) (items : List QQPayload),
      (applyWithCounter f i items).filterMap (fun r => r.2.msg_seq)
        = (List.range items.length).map (fun k => g (i + k)) := by
  intro i items
  induction items generalizing i with
  | nil => simp [applyWithCounter]
  | cons it rest ih =>
      simp only [applyWithCounter, List.filterMap_cons, hf, List.length_cons,
        List.range_succ_eq_map, List.map_cons, List.map_map]
      refine congrArg₂ _ (by simp) ?_
      rw [ih (i + 1)]
      refine List.map_congr_left ?_
      intro k _
      have h : i + 1 + k = i + (k + 1) := by omega
      simp [Function.comp, h]

/-- Counterexample to C1: in the direct (normal) pipeline, a send call
with a bound passive-reply message id and two generated payloads stamps
the SAME sequence number (the draft counter incremented once) on both
payloads, so the sequence numbers are not strictly increasing. -/
theorem pasmsg_seq_counterexample :
    ((applyPasmsgNormal Scene.group pasmsgDraftEx itemsEx).map (fun r => r.2.msg_seq)
      = [some 8, some 8])
    ∧ ¬ List.Pairwise (fun a b => a < b)
        ((applyPasmsgNormal Scene.group pasmsgDraftEx itemsEx).filterMap
          (fun r => r.2.msg_seq)) := by
  constructor
  · decide
  · decide

/-- C1 as amended: with a passive-reply binding, the template (markdown)
pipeline stamps the strictly increasing sequence numbers base, base plus
one, ... on the payloads of one send call (the base being the draft
sequence), while the direct (normal) pipeline stamps the single value
base plus one on every payload of the call. -/
theorem pasmsg_seq_amended (scene : Scene) (now : Nat) (p : PasmsgDraft)
    (items : List QQPayload) (hbind : p.msg_id ≠ "")
    (hwak : ¬ (p.is_wakeup = true ∧ scene = Scene.friend)) :
    ((applyPasmsgMarkdown scene now p items).map (fun r => r.2.msg_seq)
      = (List.range items.length).map (fun i => some (p.msg_seq + i)))
    ∧ List.Pairwise (fun a b => a < b)
        ((applyPasmsgMarkdown scene now p items).filterMap (fun r => r.2.msg_seq))
    ∧ (∀ r ∈ applyPasmsgNormal scene p items, r.2.msg_seq = some (p.msg_seq + 1)) := by
  have hwak2 : ¬ (p.is_wakeup ∧ scene = Scene.friend) := by
    intro hc
    exact hwak ⟨by simp [hc.1], hc.2⟩
  have hmd : applyPasmsgMarkdown scene now p items
      = applyWithCounter (fun i =>
          if p.type = PasType.msg then
            { emptySentQQ with msg_seq := some (p.msg_seq + i), msg_id := some p.msg_id }
          else
            { emptySentQQ with msg_seq := some (p.msg_seq + i), event_id := some p.msg_id })
        0 items := by
    simp [applyPasmsgMarkdown, hwak2, hbind]
  have hseq : ∀ k, ((fun i =>
      if p.type = PasType.msg then
        { emptySentQQ with msg_seq := some (p.msg_seq + i), msg_id := some p.msg_id }
      else
        { emptySentQQ with msg_seq := some (p.msg_seq + i), event_id := some p.msg_id }) k).msg_seq
      = some (p.msg_seq + k) := by
    intro k
    by_cases ht : p.type = PasType.msg <;> simp [ht, emptySentQQ]
  refine ⟨?_, ?_, ?_⟩
  · rw [hmd, applyWithCounter_map_seq _ (fun k => p.msg_seq + k) hseq 0 items]
    refine List.map_congr_left ?_
    intro k _
    simp
  · rw [hmd, applyWithCounter_seqs _ (fun k => p.msg_seq + k) hseq 0 items]
    have hr : List.Pairwise (fun a b => a < b) (List.range items.length) :=
      List.pairwise_lt_range items.length
    refine List.Pairwise.map _ ?_ hr
    intro a b hab
    omega
  · intro r hr
    unfold applyPasmsgNormal at hr
    rw [if_neg hwak2, if_neg hbind] at hr
    by_cases ht : p.type = PasType.msg
    · rw [if_pos ht] at hr
      obtain ⟨it, _, rfl⟩ := List.mem_map.1 hr
      rfl
    · rw [if_neg ht] at hr
      obtain ⟨it, _, rfl⟩ := List.mem_map.1 hr
      rfl

/-- Witness for the amended C1: the concrete binding and two payloads. -/
theorem pasmsg_seq_amended_witness :
    ((applyPasmsgMarkdown Scene.group 0 pasmsgDraftEx itemsEx).map (fun r => r.2.msg_seq)
      = (List.range itemsEx.length).map (fun i => some (pasmsgDraftEx.msg_seq + i)))
    ∧ List.Pairwise (fun a b => a < b)
        ((applyPasmsgMarkdown Scene.group 0 pasmsgDraftEx itemsEx).filterMap
          (fun r => r.2.msg_seq))
    ∧ (∀ r ∈ applyPasmsgNormal Scene.group pasmsgDraftEx itemsEx,
        r.2.msg_seq = some (pasmsgDraftEx.msg_seq + 1)) :=
  pasmsg_seq_amended Scene.group 0 pasmsgDraftEx itemsEx (by decide) (by decide)

/-! ## C2: stopping makes every earlier socket's callbacks inert -/

lemma closeConn_attemptSeq (cid : Nat) (st : WSState) :
    (closeConn cid st).attemptSeq = st.attemptSeq := by
  cases hc : st.conn <;> simp [closeConn, hc]
  split <;> rfl

lemma applyAction_attemptSeq (st : WSState) (a : WSAction) :
    (applyAction st a).attemptSeq = st.attemptSeq := by
  cases a <;> cases hc : st.conn <;> simp [applyAction, hc]

lemma applyActions_attemptSeq (acts : List WSAction) (st : WSState) :
    (applyActions acts st).attemptSeq = st.attemptSeq := by
  induction acts generalizing st with
  | nil => rfl
  | cons a rest ih =>
      show (applyActions rest (applyAction st a)).attemptSeq = st.attemptSeq
      rw [ih, applyAction_attemptSeq]

lemma onMessage_attemptSeq (cfg : QQBotConfig) (a cid : Nat) (fr : Frame) (st : WSState) :
    (onMessage cfg a cid fr st).attemptSeq = st.attemptSeq := by
  unfold onMessage
  split
  · rfl
  · cases hc : st.conn with
    | none => rfl
    | some c =>
        simp only
        split
        · rfl
        · exact applyActions_attemptSeq _ _

lemma stop_attemptSeq (st : WSState) :
    ((stopWebSocketConnection st).1).attemptSeq = st.attemptSeq + 1 := by
  unfold stopWebSocketConnection
  cases hc : st.conn with
  | none => simp [hc]
  | some c => simp [hc, closeConn_attemptSeq]

lemma applyStep_attemptSeq_le (st : WSState) (s : WSStep) :
    st.attemptSeq ≤ (applyStep st s).attemptSeq := by
  cases s with
  | stop =>
      show st.attemptSeq ≤ ((stopWebSocketConnection st).1).attemptSeq
      rw [stop_attemptSeq]
      omega
  | openEntry cfg =>
      show st.attemptSeq ≤ ((createWebSocketConnectionEntry cfg st).2.1).attemptSeq
      unfold createWebSocketConnectionEntry
      split
      · exact le_refl _
      · split
        · exact le_refl _
        · cases hc : st.conn with
          | none => simp [hc]
          | some c => simp [hc, closeConn_attemptSeq]
  | deliver cfg a cid fr =>
      show st.attemptSeq ≤ (onMessage cfg a cid fr st).attemptSeq
      rw [onMessage_attemptSeq]

lemma applySteps_attemptSeq_le (steps : List WSStep) (st : WSState) :
    st.attemptSeq ≤ (applySteps steps st).attemptSeq := by
  induction steps generalizing st with
  | nil => exact le_refl _
  | cons s rest ih =>
      show st.attemptSeq ≤ (applySteps rest (applyStep st s)).attemptSeq
      exact le_trans (applyStep_attemptSeq_le st s) (ih (applyStep st s))

/-- C2: stopWebSocketConnection increments the per-identity attempt
counter, so after the stop (and any further sequence of stops, open
entries and deliveries) the message callback of any socket whose captured
attempt value was issued before the stop finds the counter changed and
performs no state mutation and no event emission. -/
theorem stop_staleness (cfg : QQBotConfig) (st : WSState) (a cid : Nat) (fr : Frame)
    (steps : List WSStep) (h : a ≤ st.attemptSeq) :
    ((stopWebSocketConnection st).1.attemptSeq = st.attemptSeq + 1)
    ∧ onMessage cfg a cid fr (applySteps steps (stopWebSocketConnection st).1)
        = applySteps steps (stopWebSocketConnection st).1 := by
  refine ⟨stop_attemptSeq st, ?_⟩
  have hge : st.attemptSeq + 1 ≤ (applySteps steps (stopWebSocketConnection st).1).attemptSeq := by
    have := applySteps_attemptSeq_le steps (stopWebSocketConnection st).1
    rw [stop_attemptSeq st] at this
    exact this
  have hne : (applySteps steps (stopWebSocketConnection st).1).attemptSeq ≠ a := by omega
  unfold onMessage
  rw [if_pos hne]

/-- Witness for C2: the concrete state with two past attempts, the
callback of attempt 2, a READY frame, and an interleaved open entry. -/
theorem stop_staleness_witness :
    ((stopWebSocketConnection wsStateEx).1.attemptSeq = wsStateEx.attemptSeq + 1)
    ∧ onMessage defaultCfg 2 41 readyFrameEx
        (applySteps [WSStep.openEntry defaultCfg] (stopWebSocketConnection wsStateEx).1)
      = applySteps [WSStep.openEntry defaultCfg] (stopWebSocketConnection wsStateEx).1 :=
  stop_staleness defaultCfg wsStateEx 2 41 readyFrameEx [WSStep.openEntry defaultCfg]
    (by decide)

/-! ## C3: the auto-reconnect policy -/

lemma attemptReconnectGo_length (outcomes : Nat → Bool)
    (interfere : Nat → Option (Option Nat)) :
    ∀ (fuel k : Nat) (store : Option Nat),
      ((attemptReconnectGo outcomes interfere fuel k store).2).length ≤ fuel := by
  intro fuel
  induction fuel with
  | zero => intro k store; simp [attemptReconnectGo]
  | succ f ih =>
      intro k store
      unfold attemptReconnectGo
      split
      · simp
      · simp only
        split
        · simp
        · split
          · simp
          · simpa using Nat.succ_le_succ (ih (k + 1) _)

/-- C3: reconnect attempts from a fresh chain never exceed 5; the delay
before the attempt with 0-indexed currentAttempt k is the minimum of
1000 times 2 to the k and 16000 milliseconds (concretely 1000, 2000,
4000, 8000, 16000 for the five attempts of a never-succeeding chain); a
successful reconnect clears the per-identity reconnect counter; an
invocation whose registered counter value was superseded during its delay
performs no reconnection; and a chain arriving at currentAttempt 5 stops,
deleting the counter. -/
theorem attemptReconnect_policy (outcomes : Nat → Bool)
    (interfere : Nat → Option (Option Nat)) :
    (∀ store, ((attemptReconnect outcomes interfere 0 store).2).length ≤ 5)
    ∧ ((attemptReconnect (fun _ => false) (fun _ => none) 0 none).2
        = [(1, 1000), (2, 2000), (3, 4000), (4, 8000), (5, 16000)])
    ∧ (∀ k store, k < 5 → interfere k = none → outcomes k = true →
        attemptReconnect outcomes interfere k store
          = (none, [(k + 1, min (1000 * 2 ^ k) 16000)]))
    ∧ (∀ k store s, k < 5 → interfere k = some s → s ≠ some (k + 1) →
        attemptReconnect outcomes interfere k store = (s, []))
    ∧ (∀ k store, 5 ≤ k → attemptReconnect outcomes interfere k store = (none, [])) := by
  refine ⟨?_, by decide, ?_, ?_, ?_⟩
  · intro store
    exact attemptReconnectGo_length outcomes interfere 5 0 store
  · intro k store hk hint hout
    obtain ⟨f, hf⟩ : ∃ f, 5 - k = f + 1 := ⟨4 - k, by omega⟩
    rw [attemptReconnect, hf]
    unfold attemptReconnectGo
    rw [if_neg (by omega)]
    simp [hint, hout]
  · intro k store s hk hint hs
    obtain ⟨f, hf⟩ : ∃ f, 5 - k = f + 1 := ⟨4 - k, by omega⟩
    rw [attemptReconnect, hf]
    unfold attemptReconnectGo
    rw [if_neg (by omega)]
    simp [hint, hs]
  · intro k store hk
    rw [attemptReconnect]
    have hf : 5 - k = 0 := by omega
    rw [hf]
    rfl

/-- Witness for C3: the length bound at a concrete chain, the concrete
delay schedule, a first-attempt success, a superseded first attempt (the
counter was deleted by a stop during the delay), and the guard at
currentAttempt 5. -/
theorem attemptReconnect_policy_witness :
    (((attemptReconnect (fun _ => false) (fun _ => none) 0 none).2).length ≤ 5)
    ∧ ((attemptReconnect (fun _ => false) (fun _ => none) 0 none).2
        = [(1, 1000), (2, 2000), (3, 4000), (4, 8000), (5, 16000)])
    ∧ (attemptReconnect (fun _ => true) (fun _ => none) 0 none
        = (none, [(0 + 1, min (1000 * 2 ^ 0) 16000)]))
    ∧ (attemptReconnect (fun _ => true) (fun _ => some none) 0 none = (none, []))
    ∧ (attemptReconnect (fun _ => true) (fun _ => none) 5 (some 5) = (none, [])) := by
  refine ⟨(attemptReconnect_policy (fun _ => false) (fun _ => none)).1 none,
    (attemptReconnect_policy (fun _ => false) (fun _ => none)).2.1,
    (attemptReconnect_policy (fun _ => true) (fun _ => none)).2.2.1 0 none
      (by decide) rfl rfl,
    (attemptReconnect_policy (fun _ => true) (fun _ => some none)).2.2.2.1 0 none none
      (by decide) rfl (by decide),
    (attemptReconnect_policy (fun _ => true) (fun _ => none)).2.2.2.2 5 (some 5)
      (by decide)⟩

/-! ## C5: what resolves an open attempt -/

lemma runOpen_resolved (l : List ConnEvent) (v : Bool) :
    runOpen l (some v) = some v := by
  induction l with
  | nil => rfl
  | cons e rest ih => simpa [runOpen] using ih

lemma resolveValue_eq_some_true (e : ConnEvent) :
    resolveValue e = some true ↔
      ∃ fr, e = ConnEvent.frame false fr ∧ fr.op = Opcode.dispatch ∧ fr.t = some "READY" := by
  constructor
  · intro h
    cases e with
    | timeout => simp [resolveValue] at h
    | gatewayFail stale =>
        cases stale <;> simp [resolveValue] at h
    | gatewayResult stale url token =>
        cases stale <;> cases url <;> cases token <;> simp [resolveValue] at h
    | socketClose stale => cases stale <;> simp [resolveValue] at h
    | socketError stale => cases stale <;> simp [resolveValue] at h
    | frame stale fr =>
        cases stale with
        | true => simp [resolveValue] at h
        | false =>
            simp only [resolveValue, if_false, Bool.false_eq_true] at h
            by_cases hc : fr.op = Opcode.dispatch ∧ fr.t = some "READY"
            · exact ⟨fr, rfl, hc⟩
            · rw [if_neg (by simpa using hc)] at h
              simp at h
  · rintro ⟨fr, rfl, h1, h2⟩
    simp [resolveValue, h1, h2]

lemma openResult_eq_some_iff (evs : List ConnEvent) (v : Bool) :
    openResult evs = some v ↔
      ∃ pre e post, evs = pre ++ e :: post ∧ resolveValue e = some v
        ∧ ∀ x ∈ pre, resolveValue x = none := by
  induction evs with
  | nil =>
      simp only [openResult, runOpen]
      constructor
      · intro h; cases h
      · rintro ⟨pre, e, post, h, -, -⟩
        exact absurd h (by simp)
  | cons a rest ih =>
      show runOpen rest (resolveValue a) = some v ↔ _
      cases hv : resolveValue a with
      | none =>
          rw [show runOpen rest none = openResult rest from rfl, ih]
          constructor
          · rintro ⟨pre, e, post, rfl, he, hpre⟩
            refine ⟨a :: pre, e, post, rfl, he, ?_⟩
            intro x hx
            rcases List.mem_cons.1 hx with rfl | hx
            · exact hv
            · exact hpre x hx
          · rintro ⟨pre, e, post, heq, he, hpre⟩
            cases pre with
            | nil =>
                obtain ⟨rfl, rfl⟩ : a = e ∧ rest = post := by
                  simpa using heq
                rw [hv] at he
                cases he
            | cons b pre2 =>
                obtain ⟨rfl, hrest⟩ : b = a ∧ rest = pre2 ++ e :: post := by
                  have := heq
                  simp only [List.cons_append, List.cons.injEq] at this
                  exact ⟨this.1.symm, this.2⟩
                refine ⟨pre2, e, post, hrest, he, ?_⟩
                intro x hx
                exact hpre x (List.mem_cons_of_mem _ hx)
      | some w =>
          rw [runOpen_resolved]
          constructor
          · intro h
            refine ⟨[], a, rest, rfl, ?_, by simp⟩
            rw [hv, h]
          · rintro ⟨pre, e, post, heq, he, hpre⟩
            cases pre with
            | nil =>
                obtain ⟨rfl, rfl⟩ : a = e ∧ rest = post := by
                  simpa using heq
                rw [hv] at he
                exact he
            | cons b pre2 =>
                have hb : b = a := by
                  have := heq
                  simp only [List.cons_append, List.cons.injEq] at this
                  exact this.1.symm
                have hnone := hpre b (by simp)
                rw [hb, hv] at hnone
                cases hnone

/-- C5: an open attempt resolves true exactly when a non-stale READY
dispatch frame is the first resolving occurrence, that is, it arrives
before the 10-second timeout fires and before any close, error, failed or
empty gateway fetch or missing-token lookup; and whenever one of those
false-resolving occurrences (the timeout in particular) comes first, the
attempt resolves false regardless of every later frame. -/
theorem open_resolution_spec (evs : List ConnEvent) :
    (openResult evs = some true ↔
      ∃ pre fr post, evs = pre ++ ConnEvent.frame false fr :: post
        ∧ fr.op = Opcode.dispatch ∧ fr.t = some "READY"
        ∧ ∀ x ∈ pre, resolveValue x = none)
    ∧ (∀ pre post, evs = pre ++ ConnEvent.timeout :: post →
        (∀ x ∈ pre, resolveValue x = none) → openResult evs = some false)
    ∧ (∀ pre e post, evs = pre ++ e :: post → resolveValue e = some false →
        (∀ x ∈ pre, resolveValue x = none) → openResult evs = some false) := by
  refine ⟨?_, ?_, ?_⟩
  · rw [openResult_eq_some_iff]
    constructor
    · rintro ⟨pre, e, post, rfl, he, hpre⟩
      obtain ⟨fr, rfl, h1, h2⟩ := (resolveValue_eq_some_true e).1 he
      exact ⟨pre, fr, post, rfl, h1, h2, hpre⟩
    · rintro ⟨pre, fr, post, rfl, h1, h2, hpre⟩
      exact ⟨pre, ConnEvent.frame false fr, post, rfl,
        (resolveValue_eq_some_true _).2 ⟨fr, rfl, h1, h2⟩, hpre⟩
  · intro pre post heq hpre
    rw [openResult_eq_some_iff]
    exact ⟨pre, ConnEvent.timeout, post, heq, rfl, hpre⟩
  · intro pre e post heq he hpre
    rw [openResult_eq_some_iff]
    exact ⟨pre, e, post, heq, he, hpre⟩

/-- Witness for C5: a run where the gateway answers, then READY arrives,
resolves true; a run where the timeout fires first resolves false even
though READY arrives later. -/
theorem open_resolution_spec_witness :
    openResult [ConnEvent.gatewayResult false (some "wss://gw") (some "tok"),
                ConnEvent.frame false readyFrameEx] = some true
    ∧ openResult [ConnEvent.timeout, ConnEvent.frame false readyFrameEx] = some false := by
  constructor
  · exact (open_resolution_spec
      [ConnEvent.gatewayResult false (some "wss://gw") (some "tok"),
       ConnEvent.frame false readyFrameEx]).1.2
      ⟨[ConnEvent.gatewayResult false (some "wss://gw") (some "tok")], readyFrameEx, [],
        rfl, rfl, rfl, by decide⟩
  · exact (open_resolution_spec
      [ConnEvent.timeout, ConnEvent.frame false readyFrameEx]).2.1
      [] [ConnEvent.frame false readyFrameEx] rfl (by simp)

/-! ## C9: unsupported element tags never abort, empty drafts fall back -/

lemma classifyQQStep_unsupported (P : ComposerParams) (scene : Scene) (d : QQDraft)
    (e : Element) (h : qqSupported e = false) : classifyQQStep P scene d e = d := by
  cases e <;> first
    | rfl
    | simp [qqSupported] at h

lemma classifyGuildStep_unsupported (P : ComposerParams) (scene : Scene) (d : GuildDraft)
    (e : Element) (h : guildSupported e = false) : classifyGuildStep P scene d e = d := by
  cases e <;> first
    | rfl
    | simp [guildSupported] at h

lemma classifyQQ_insert_unsupported (P : ComposerParams) (scene : Scene)
    (es1 es2 : List Element) (e : Element) (h : qqSupported e = false) (d : QQDraft) :
    classifyQQ P scene (es1 ++ e :: es2) d = classifyQQ P scene (es1 ++ es2) d := by
  unfold classifyQQ
  rw [List.foldl_append, List.foldl_append, List.foldl_cons,
    classifyQQStep_unsupported P scene _ e h]

lemma classifyGuild_insert_unsupported (P : ComposerParams) (scene : Scene)
    (es1 es2 : List Element) (e : Element) (h : guildSupported e = false) (d : GuildDraft) :
    classifyGuild P scene (es1 ++ e :: es2) d = classifyGuild P scene (es1 ++ es2) d := by
  unfold classifyGuild
  rw [List.foldl_append, List.foldl_append, List.foldl_cons,
    classifyGuildStep_unsupported P scene _ e h]

lemma finalizeQQ_ne_nil (l : List QQPayload) : finalizeQQ l ≠ [] := by
  unfold finalizeQQ
  split <;> simp_all

lemma finalizeGuild_ne_nil (l : List GuildPayload) : finalizeGuild l ≠ [] := by
  unfold finalizeGuild
  split <;> simp_all

/-- C9: in the direct pipeline of both the QQ and the guild surface, an
element whose tag has no classification branch never aborts the send: it
leaves the produced payload list unchanged (for every behaviour of the
external collaborators and of the markdownToButton post-processing) while
a debug log entry records it; the sent payload list is never empty; and
when classification plus post-processing produced no payload at all,
exactly one literal unsupported-message-type text payload is sent. -/
theorem unsupported_element_handling (P : ComposerParams) (scene : Scene) (seed : Nat) :
    (∀ es1 es2 e, qqSupported e = false →
      sendQQMsgPayloads P scene seed (es1 ++ e :: es2)
          = sendQQMsgPayloads P scene seed (es1 ++ es2)
        ∧ qqSkipLogs (es1 ++ e :: es2) = qqSkipLogs es1 ++ e :: qqSkipLogs es2)
    ∧ (∀ es, sendQQMsgPayloads P scene seed es ≠ [])
    ∧ (∀ es, P.markdownToButton (classifyQQ P scene es (initQQDraft seed))
          (assembleQQ P (classifyQQ P scene es (initQQDraft seed))) = [] →
        sendQQMsgPayloads P scene seed es = [QQPayload.text "不支持发送的消息类型"])
    ∧ (∀ es1 es2 e, guildSupported e = false →
      sendGuildMsgPayloads P scene seed (es1 ++ e :: es2)
          = sendGuildMsgPayloads P scene seed (es1 ++ es2)
        ∧ guildSkipLogs (es1 ++ e :: es2) = guildSkipLogs es1 ++ e :: guildSkipLogs es2)
    ∧ (∀ es, sendGuildMsgPayloads P scene seed es ≠ [])
    ∧ (∀ es, P.markdownToButtonGuild (classifyGuild P scene es (initGuildDraft seed))
          (assembleGuild P (classifyGuild P scene es (initGuildDraft seed))) = [] →
        sendGuildMsgPayloads P scene seed es
          = [GuildPayload.text "不支持发送的消息类型" none]) := by
  refine ⟨?_, ?_, ?_, ?_, ?_, ?_⟩
  · intro es1 es2 e h
    constructor
    · unfold sendQQMsgPayloads
      rw [classifyQQ_insert_unsupported P scene es1 es2 e h]
    · unfold qqSkipLogs
      rw [List.filter_append]
      simp [List.filter_cons, h]
  · intro es
    exact finalizeQQ_ne_nil _
  · intro es hempty
    show finalizeQQ (P.markdownToButton (classifyQQ P scene es (initQQDraft seed))
        (assembleQQ P (classifyQQ P scene es (initQQDraft seed)))) = _
    rw [hempty]
    rfl
  · intro es1 es2 e h
    constructor
    · unfold sendGuildMsgPayloads
      rw [classifyGuild_insert_unsupported P scene es1 es2 e h]
    · unfold guildSkipLogs
      rw [List.filter_append]
      simp [List.filter_cons, h]
  · intro es
    exact finalizeGuild_ne_nil _
  · intro es hempty
    show finalizeGuild (P.markdownToButtonGuild (classifyGuild P scene es (initGuildDraft seed))
        (assembleGuild P (classifyGuild P scene es (initGuildDraft seed)))) = _
    rw [hempty]
    rfl

/-- A collaborator instantiation for the witness: identity-like external
functions and a post-processing that keeps the payload list unchanged. -/
def composerParamsEx : ComposerParams :=
  { hendleText := fun s => { text := s, qr := none, qrs := [] }
  , fileToUrl := fun s => s
  , uploadMedia := fun s => s
  , uploadImage := fun s => s
  , bufferOf := fun s => s
  , markdownToButton := fun _ l => l
  , markdownToButtonGuild := fun _ l => l }

/-- Witness for C9: a face element is skipped by the QQ pipeline and
logged, an empty element list is sent as the single fallback payload, and
the same on the guild surface with a video element. -/
theorem unsupported_element_handling_witness :
    (sendQQMsgPayloads composerParamsEx Scene.group 0 [Element.text "hi", Element.face "5"]
        = sendQQMsgPayloads composerParamsEx Scene.group 0 [Element.text "hi"]
      ∧ qqSkipLogs [Element.text "hi", Element.face "5"]
        = qqSkipLogs [Element.text "hi"] ++ Element.face "5" :: qqSkipLogs [])
    ∧ sendQQMsgPayloads composerParamsEx Scene.group 0 [] ≠ []
    ∧ sendQQMsgPayloads composerParamsEx Scene.group 0 []
        = [QQPayload.text "不支持发送的消息类型"]
    ∧ (sendGuildMsgPayloads composerParamsEx Scene.guild 0 [Element.video "v.mp4"]
        = sendGuildMsgPayloads composerParamsEx Scene.guild 0 []
      ∧ guildSkipLogs [Element.video "v.mp4"]
        = guildSkipLogs [] ++ Element.video "v.mp4" :: guildSkipLogs []) := by
  have H := unsupported_element_handling composerParamsEx Scene.group 0
  have HG := unsupported_element_handling composerParamsEx Scene.guild 0
  refine ⟨?_, H.2.1 [], H.2.2.1 [] (by rfl), ?_⟩
  · have := H.1 [Element.text "hi"] [] (Element.face "5") (by decide)
    simpa using this
  · have := HG.2.2.2.1 [] [] (Element.video "v.mp4") (by decide)
    simpa using this

/-! ## C8: the write/load round trip of the configuration -/

lemma jsOrString_ne_empty (o : Option String) (d : String) (hd : d ≠ "") :
    jsOrString o d ≠ "" := by
  cases o with
  | none => exact hd
  | some s =>
      show (if s = "" then d else s) ≠ ""
      split
      · exact hd
      · assumption

lemma formatOne_inv (u : UserQQBotConfig) : cfgInv (formatOne u) :=
  ⟨jsOrString_ne_empty _ _ (by decide), jsOrString_ne_empty _ _ (by decide),
   jsOrString_ne_empty _ _ (by decide), jsOrString_ne_empty _ _ (by decide)⟩

lemma formatOne_cleanOne (x : QQBotConfig) (hx : cfgInv x) : formatOne (cleanOne x) = x := by
  obtain ⟨hp, hsx, htk, hw⟩ := hx
  obtain ⟨appId, secret, prodApi, sandboxApi, tokenApi, sandbox, qqEnable, guildEnable,
    guildMode, exclude, regex, ⟨mmode, mid, mkv⟩, ⟨etype, ewsUrl, ewsToken⟩⟩ := x
  simp only [cfgInv] at hp hsx htk hw
  simp only [cleanOne, formatOne, getDefaultConfig, defaultCfg, List.headI]
  split_ifs <;> simp_all [jsOrString]

lemma upsertCfg_mem (acc : List (String × QQBotConfig)) (key : String) (cfg : QQBotConfig)
    (p : String × QQBotConfig) (hp : p ∈ upsertCfg acc key cfg) :
    p ∈ acc ∨ p = (key, cfg) := by
  unfold upsertCfg at hp
  split at hp
  · obtain ⟨q, hq, hpq⟩ := List.mem_map.1 hp
    by_cases h : q.1 = key
    · right
      rw [if_pos h] at hpq
      exact hpq.symm
    · left
      rw [if_neg h] at hpq
      rwa [← hpq]
  · rcases List.mem_append.1 hp with h | h
    · exact Or.inl h
    · right
      simpa using h

lemma foldl_dedupStep_mem :
    ∀ (l : List QQBotConfig) (acc : List (String × QQBotConfig)) (p : String × QQBotConfig),
      p ∈ l.foldl dedupStep acc → p ∈ acc ∨ p.2 ∈ l := by
  intro l
  induction l with
  | nil =>
      intro acc p hp
      exact Or.inl hp
  | cons c rest ih =>
      intro acc p hp
      rw [List.foldl_cons] at hp
      rcases ih (dedupStep acc c) p hp with h | h
      · unfold dedupStep at h
        split at h
        · exact Or.inl h
        · rcases upsertCfg_mem _ _ _ _ h with h2 | h2
          · exact Or.inl h2
          · right
            rw [h2]
            simp
      · right
        exact List.mem_cons_of_mem _ h

lemma dedupByAppId_mem (l : List QQBotConfig) (x : QQBotConfig)
    (hx : x ∈ dedupByAppId l) : x ∈ l := by
  unfold dedupByAppId at hx
  obtain ⟨p, hp, rfl⟩ := List.mem_map.1 hx
  rcases foldl_dedupStep_mem l [] p hp with h | h
  · cases h
  · exact h

lemma upsertCfg_inv (acc : List (String × QQBotConfig)) (key : String) (cfg : QQBotConfig)
    (hacc : AccInv acc) (hk : key ≠ "") (hcfg : cfg.appId.trim = key) :
    AccInv (upsertCfg acc key cfg) := by
  obtain ⟨hpairs, hnodup⟩ := hacc
  unfold upsertCfg
  split
  next hany =>
    constructor
    · intro p hp
      obtain ⟨q, hq, hpq⟩ := List.mem_map.1 hp
      by_cases h : q.1 = key
      · rw [if_pos h] at hpq
        rw [← hpq]
        exact ⟨hcfg.symm, hk⟩
      · rw [if_neg h] at hpq
        rw [← hpq]
        exact hpairs q hq
    · have hfst : (acc.map (fun q => if q.1 = key then (key, cfg) else q)).map Prod.fst
          = acc.map Prod.fst := by
        rw [List.map_map]
        refine List.map_congr_left ?_
        intro q _
        by_cases h : q.1 = key <;> simp [Function.comp, h]
      rw [hfst]
      exact hnodup
  next hany =>
    constructor
    · intro p hp
      rcases List.mem_append.1 hp with h | h
      · exact hpairs p h
      · simp only [List.mem_singleton] at h
        rw [h]
        exact ⟨hcfg.symm, hk⟩
    · rw [List.map_append]
      have hkey : key ∉ acc.map Prod.fst := by
        intro hmem
        obtain ⟨q, hq, hq2⟩ := List.mem_map.1 hmem
        exact hany (List.any_eq_true.2 ⟨q, hq, by simp [hq2]⟩)
      simp [List.nodup_append, hnodup, hkey]

lemma foldl_dedupStep_inv :
    ∀ (l : List QQBotConfig) (acc : List (String × QQBotConfig)),
      AccInv acc → AccInv (l.foldl dedupStep acc) := by
  intro l
  induction l with
  | nil =>
      intro acc h
      exact h
  | cons c rest ih =>
      intro acc h
      rw [List.foldl_cons]
      apply ih
      unfold dedupStep
      split
      · exact h
      next hne => exact upsertCfg_inv acc _ c h hne rfl

lemma dedupByAppId_inv (l : List QQBotConfig) :
    (∀ x ∈ dedupByAppId l, x.appId.trim ≠ "")
    ∧ ((dedupByAppId l).map (fun x => x.appId.trim)).Nodup := by
  obtain ⟨hpairs, hnodup⟩ := foldl_dedupStep_inv l [] ⟨by simp, by simp⟩
  constructor
  · intro x hx
    unfold dedupByAppId at hx
    obtain ⟨p, hp, rfl⟩ := List.mem_map.1 hx
    have h := hpairs p hp
    rw [← h.1]
    exact h.2
  · unfold dedupByAppId
    rw [List.map_map]
    have hmap : (l.foldl dedupStep []).map ((fun x => x.appId.trim) ∘ Prod.snd)
        = (l.foldl dedupStep []).map Prod.fst := by
      refine List.map_congr_left ?_
      intro p hp
      simp only [Function.comp]
      exact ((hpairs p hp).1).symm
    rw [hmap]
    exact hnodup

lemma foldl_dedupStep_fresh :
    ∀ (l : List QQBotConfig) (acc : List (String × QQBotConfig)),
      (∀ x ∈ l, x.appId.trim ≠ "") →
      ((l.map (fun x => x.appId.trim)).Nodup) →
      (∀ x ∈ l, x.appId.trim ∉ acc.map Prod.fst) →
      l.foldl dedupStep acc = acc ++ l.map (fun x => (x.appId.trim, x)) := by
  intro l
  induction l with
  | nil =>
      intro acc _ _ _
      simp
  | cons c rest ih =>
      intro acc hne hnodup hfresh
      rw [List.foldl_cons]
      have hnd : c.appId.trim ∉ rest.map (fun x => x.appId.trim)
          ∧ (rest.map (fun x => x.appId.trim)).Nodup := by
        rw [List.map_cons] at hnodup
        exact List.nodup_cons.1 hnodup
      have hnotany : ¬ (acc.any (fun p => p.1 = c.appId.trim) = true) := by
        simp only [List.any_eq_true, decide_eq_true_eq]
        rintro ⟨p, hp, hkey⟩
        exact hfresh c (by simp) (List.mem_map.2 ⟨p, hp, hkey⟩)
      have hstep : dedupStep acc c = acc ++ [(c.appId.trim, c)] := by
        unfold dedupStep
        rw [if_neg (hne c (by simp))]
        unfold upsertCfg
        rw [if_neg hnotany]
      rw [hstep]
      rw [ih (acc ++ [(c.appId.trim, c)])
        (fun x hx => hne x (List.mem_cons_of_mem _ hx)) hnd.2 ?_]
      · simp
      · intro x hx
        rw [List.map_append, List.mem_append]
        rintro (h | h)
        · exact hfresh x (List.mem_cons_of_mem _ hx) h
        · simp only [List.map_cons, List.map_nil, List.mem_singleton] at h
          exact hnd.1 (List.mem_map.2 ⟨x, hx, h⟩)

lemma dedupByAppId_idem_of (l : List QQBotConfig)
    (hne : ∀ x ∈ l, x.appId.trim ≠ "")
    (hnodup : (l.map (fun x => x.appId.trim)).Nodup) :
    dedupByAppId l = l := by
  unfold dedupByAppId
  rw [foldl_dedupStep_fresh l [] hne hnodup (by simp)]
  rw [List.nil_append, List.map_map]
  exact List.map_id l

/-- C8: writing a configuration list via the save path (format with
defaults, then strip the default-valued fields) and re-loading it through
formatConfig yields the same list: every default-stripped field reappears
with its default value. -/
theorem formatConfig_roundTrip (c : List UserQQBotConfig) :
    formatConfig (cleanConfigForWrite (formatConfig c)) = formatConfig c := by
  have hmem : ∀ x ∈ formatConfig c, cfgInv x := by
    intro x hx
    have hx2 : x ∈ (c.map formatOne) := dedupByAppId_mem _ x hx
    obtain ⟨u, _, rfl⟩ := List.mem_map.1 hx2
    exact formatOne_inv u
  have hinv := dedupByAppId_inv (c.map formatOne)
  show dedupByAppId ((cleanConfigForWrite (formatConfig c)).map formatOne) = formatConfig c
  have hclean : (cleanConfigForWrite (formatConfig c)).map formatOne = formatConfig c := by
    unfold cleanConfigForWrite
    rw [List.map_map]
    conv_rhs => rw [← List.map_id (formatConfig c)]
    refine List.map_congr_left ?_
    intro x hx
    simpa [Function.comp] using formatOne_cleanOne x (hmem x hx)
  rw [hclean]
  exact dedupByAppId_idem_of _ hinv.1 hinv.2

end QQBotAdapter
